import Mathlib

/-!
Verification model of the cross-chain bridge listener in src/script.py.

The listener polls a source chain for bridge events, decodes them, relays them to a
destination chain, and tracks progress in a persisted state file. The definitions below
are a shallow embedding of the script: pure Python functions become Lean functions,
the mutable state dict becomes an explicit StateDB value threaded through the tick,
raised exceptions become Option results, and the external web3/eth_abi primitives
(keccak, checksum formatting, ABI decoding), which the script imports rather than
defines, are modelled from the spec as explicit collaborator functions.
-/

set_option maxHeartbeats 2000000
set_option maxRecDepth 100000

namespace Script

/-- A decoded ABI value: a string (addresses) or an unsigned integer (uint256 fields). -/
inductive Value where
  | str (s : String)
  | num (n : Nat)
  deriving DecidableEq

/-- One entry of the ABI event input list: field name, solidity type, indexed flag
(script.py lines 33-45). -/
structure AbiInput where
  name : String
  type : String
  indexed : Bool
  deriving DecidableEq

/-- A raw event log with the LogReceipt fields the script reads (script.py 156-169). -/
structure Log where
  address : String
  topics : List String
  data : String
  blockNumber : Int
  transactionHash : String
  transactionIndex : Nat
  logIndex : Nat
  removed : Bool
  deriving DecidableEq

/-- The dict built by EventParser.parse_log: decoded fields plus metadata. -/
structure ParsedEvent where
  event_name : String
  fields : List (String × Value)
  transactionHash : String
  blockNumber : Int
  deriving DecidableEq

/-- The listener state dict held by StateDB (script.py 48-97). -/
structure StateDB where
  last_processed_block : Int
  processed_event_hashes : List String
  deriving DecidableEq

/-- The default state dict of _load_state (script.py 62 and 65), as the typed state
the orchestrator works with. -/
def default_state : StateDB :=
  { last_processed_block := 0, processed_event_hashes := [] }

/-- A JSON value, as json.load can return one: the backing store may hold a document of
any shape, not only the state schema. -/
inductive Json where
  | null
  | bool (b : Bool)
  | num (n : Int)
  | str (s : String)
  | arr (xs : List Json)
  | obj (fields : List (String × Json))

/-- The document json.dump writes for the listener state dict (script.py 70-71). -/
def stateToJson (db : StateDB) : Json :=
  Json.obj [("last_processed_block", Json.num db.last_processed_block),
            ("processed_event_hashes",
              Json.arr (db.processed_event_hashes.map Json.str))]

/-- The default document returned by the two except branches of _load_state
(script.py 62 and 65). -/
def default_state_doc : Json :=
  Json.obj [("last_processed_block", Json.num 0),
            ("processed_event_hashes", Json.arr [])]

/-- Contents of the backing store as seen by StateDB._load_state: an absent file, bytes
that do not decode as text, text that is not valid JSON, or a valid JSON document of
any shape whatsoever. -/
inductive FileContent where
  | missing
  | undecodable
  | syntaxError
  | doc (j : Json)

/-- StateDB._load_state (script.py 54-65): the parsed JSON document verbatim on
success, whatever its shape; the default document on FileNotFoundError and on
json.JSONDecodeError; bytes that do not decode as text raise UnicodeDecodeError inside
json.load, which neither except clause catches, so the exception propagates to the
caller (modelled as none) and the StateDB constructor fails. -/
def load_state : FileContent → Option Json
  | FileContent.missing => some default_state_doc
  | FileContent.undecodable => none
  | FileContent.syntaxError => some default_state_doc
  | FileContent.doc j => some j

/-- StateDB.get_last_processed_block applied to a freshly loaded document (script.py
76-78): dict.get with default 0 on a dict document; the attribute access raises on a
non-dict document (modelled as none). -/
def loaded_cursor : Json → Option Json
  | Json.obj fields =>
    some ((Option.map (fun kv => kv.2)
      (fields.find? (fun kv => kv.1 == "last_processed_block"))).getD (Json.num 0))
  | _ => none

/-- StateDB.is_event_processed (script.py 84-87): membership test in the list of
processed event hashes. -/
def is_event_processed (db : StateDB) (h : String) : Bool :=
  decide (h ∈ db.processed_event_hashes)

/-- The max_events pruning capacity of mark_event_as_processed (script.py 95). -/
def max_events : Nat := 10000

/-- StateDB.mark_event_as_processed (script.py 89-97): append the hash; when the list
exceeds max_events entries, keep only the last max_events of them. -/
def mark_event_as_processed (db : StateDB) (h : String) : StateDB :=
  { db with processed_event_hashes :=
      if (db.processed_event_hashes ++ [h]).length > max_events
      then List.drop ((db.processed_event_hashes ++ [h]).length - max_events)
             (db.processed_event_hashes ++ [h])
      else db.processed_event_hashes ++ [h] }

/-- StateDB.set_last_processed_block (script.py 80-82). -/
def set_last_processed_block (db : StateDB) (b : Int) : StateDB :=
  { db with last_processed_block := b }

/-- Modelled from the spec: the external collaborator primitives of section 6, which the
script imports from web3 and eth_abi rather than defining: a deterministic keccak text
digest used for dedup keys, the address-checksum formatter, and the ABI value decoder
for a single topic and for the data blob. A formatter or decoder returns none exactly
where the library call raises an exception. -/
structure Primitives where
  keccakText : String → String
  toChecksum : String → Option String
  abiDecodeTopic : String → String → Option Value
  abiDecodeData : List String → String → Option (List Value)

/-- EventParser state after __init__ (script.py 175-181): the event name and the inputs
split into indexed and non-indexed, in declaration order. -/
structure EventParser where
  event_name : String
  indexed_inputs : List AbiInput
  non_indexed_inputs : List AbiInput

/-- EventParser.__init__ on one event ABI entry: filter inputs by the indexed flag. -/
def mkEventParser (name : String) (inputs : List AbiInput) : EventParser :=
  { event_name := name,
    indexed_inputs := inputs.filter (fun i => i.indexed),
    non_indexed_inputs := inputs.filter (fun i => !i.indexed) }

/-- The inputs of the TokensLocked event in BRIDGE_ABI (script.py 33-45). -/
def BRIDGE_EVENT_INPUTS : List AbiInput :=
  [ { name := "user", type := "address", indexed := true },
    { name := "token", type := "address", indexed := true },
    { name := "amount", type := "uint256", indexed := false },
    { name := "destinationChainId", type := "uint256", indexed := false } ]

/-- The EventParser the listener constructs from BRIDGE_ABI (script.py 246). -/
def bridgeEventParser : EventParser :=
  mkEventParser "TokensLocked" BRIDGE_EVENT_INPUTS

/-- Python slicing s[-n:] on strings: the last n characters, or the whole string when it
is shorter than n. -/
def takeLastStr (s : String) (n : Nat) : String :=
  String.mk (s.data.drop (s.data.length - n))

/-- Python slicing s[n:] on strings. -/
def dropStr (s : String) (n : Nat) : String :=
  String.mk (s.data.drop n)

/-- The value of one indexed topic (script.py 189-196): address types take the checksum
of the low 20 bytes of the topic; other types go through the ABI decoder (which in the
script is handed a string instead of bytes and therefore raises). -/
def decodeTopicValue (p : Primitives) (inp : AbiInput) (topic : String) : Option Value :=
  if inp.type == "address"
  then Option.map Value.str (p.toChecksum ("0x" ++ takeLastStr topic 40))
  else p.abiDecodeTopic inp.type topic

/-- The indexed-topics loop of parse_log (script.py 189-196): input i reads topics at
position i + 1; a missing topic is an IndexError and any decoding failure an exception,
all caught by the surrounding except which yields None for the whole parse. -/
def decodeIndexed (p : Primitives) (topics : List String) :
    List AbiInput → Nat → Option (List (String × Value))
  | [], _ => some []
  | inp :: rest, i =>
    match topics[i + 1]? with
    | none => none
    | some topic =>
      match decodeTopicValue p inp topic with
      | none => none
      | some v =>
        match decodeIndexed p topics rest (i + 1) with
        | none => none
        | some vs => some ((inp.name, v) :: vs)

/-- The non-indexed loop of parse_log (script.py 202-203): field i takes decoded value
i; too few decoded values is an IndexError. Surplus decoded values are ignored. -/
def pairDataFields (decoded : List Value) :
    List AbiInput → Nat → Option (List (String × Value))
  | [], _ => some []
  | inp :: rest, i =>
    match decoded[i]? with
    | none => none
    | some v =>
      match pairDataFields decoded rest (i + 1) with
      | none => none
      | some vs => some ((inp.name, v) :: vs)

/-- EventParser.parse_log (script.py 183-212): decode the indexed topics, decode the
data blob after stripping the 0x prefix, pair the non-indexed fields, and attach the
transaction hash and block number; any exception anywhere returns None. -/
def parse_log (p : Primitives) (ep : EventParser) (log : Log) : Option ParsedEvent :=
  match decodeIndexed p log.topics ep.indexed_inputs 0 with
  | none => none
  | some ifields =>
    match p.abiDecodeData (ep.non_indexed_inputs.map (fun i => i.type))
        (dropStr log.data 2) with
    | none => none
    | some decoded =>
      match pairDataFields decoded ep.non_indexed_inputs 0 with
      | none => none
      | some dfields =>
        some { event_name := ep.event_name, fields := ifields ++ dfields,
               transactionHash := log.transactionHash, blockNumber := log.blockNumber }

/-- BLOCK_PROCESSING_BATCH_SIZE (script.py 28). -/
def BLOCK_PROCESSING_BATCH_SIZE : Int := 100

/-- CONFIRMATIONS_REQUIRED (script.py 29). -/
def CONFIRMATIONS_REQUIRED : Int := 6

/-- The scan-range computation of _process_new_blocks (script.py 275-289): the upper
bound is the head minus the confirmation count, the lower bound one past the cursor;
an empty range returns early; the upper bound is pulled in only when it exceeds the
lower bound by strictly more than the batch size. -/
def computeRange (lastProcessed latest : Int) : Option (Int × Int) :=
  if lastProcessed + 1 > latest - CONFIRMATIONS_REQUIRED then none
  else if latest - CONFIRMATIONS_REQUIRED - (lastProcessed + 1)
      > BLOCK_PROCESSING_BATCH_SIZE then
    some (lastProcessed + 1, lastProcessed + 1 + BLOCK_PROCESSING_BATCH_SIZE - 1)
  else
    some (lastProcessed + 1, latest - CONFIRMATIONS_REQUIRED)

/-- The dedup key of a log (script.py 300): keccak of the transaction hash concatenated
with the decimal log index. -/
def event_hash_of (p : Primitives) (log : Log) : String :=
  p.keccakText (log.transactionHash ++ toString log.logIndex)

/-- One iteration of the per-log loop (script.py 299-309): skip when the key is already
recorded, skip when the parse returns None, otherwise invoke the relayer, consuming one
outcome from the relay oracle, and mark the key only on a successful relay. Returns the
updated state, the updated relay-attempt count, and the dedup keys for which the relayer
was invoked. -/
def processLog (p : Primitives) (ep : EventParser) (relayOk : Nat → Bool)
    (db : StateDB) (n : Nat) (log : Log) : StateDB × Nat × List String :=
  if is_event_processed db (event_hash_of p log) then (db, n, [])
  else
    match parse_log p ep log with
    | none => (db, n, [])
    | some _ =>
      if relayOk n then (mark_event_as_processed db (event_hash_of p log), n + 1,
        [event_hash_of p log])
      else (db, n + 1, [event_hash_of p log])

/-- The per-log loop over a whole fetched batch (script.py 299-309). -/
def processLogs (p : Primitives) (ep : EventParser) (relayOk : Nat → Bool) :
    StateDB → Nat → List Log → StateDB × Nat × List String
  | db, n, [] => (db, n, [])
  | db, n, log :: rest =>
    let r := processLog p ep relayOk db n log
    let r2 := processLogs p ep relayOk r.1 r.2.1 rest
    (r2.1, r2.2.1, r.2.2 ++ r2.2.2)

/-- The listener state together with its backing store document. -/
structure SysState where
  mem : StateDB
  file : FileContent

/-- The environment one tick runs against: the height the source connector reports, the
fetch result (none models a raised ConnectionError), the outcome of each relay attempt
in order, and whether the save_state write succeeds (false models the caught IOError of
script.py 73-74). -/
structure TickInput where
  latest : Int
  fetched : Option (List Log)
  relayOk : Nat → Bool
  persistOk : Bool

/-- _process_new_blocks (script.py 273-316): compute the range and return early when it
is empty; when the fetch raises, the except branch leaves all state untouched; otherwise
process the batch, then unconditionally set the cursor to the upper bound of the range
and save the state, a failed save being logged and the file left as it was. The second
component is the relay-invocation trace of the tick. -/
def runTick (p : Primitives) (ep : EventParser) (inp : TickInput) (s : SysState) :
    SysState × List String :=
  match computeRange s.mem.last_processed_block inp.latest with
  | none => (s, [])
  | some ft =>
    match inp.fetched with
    | none => (s, [])
    | some logs =>
      let r := processLogs p ep inp.relayOk s.mem 0 logs
      let db2 := set_last_processed_block r.1 ft.2
      ({ mem := db2,
         file := if inp.persistOk then FileContent.doc (stateToJson db2) else s.file },
       r.2.2)

/-- A tick interrupted by an exception after j iterations of the per-log loop: the
except branch of script.py 315-316 is reached, so the cursor update and the save on
lines 312-313 never run and the backing store is untouched. -/
def runTickInterrupted (p : Primitives) (ep : EventParser) (inp : TickInput)
    (s : SysState) (j : Nat) : SysState × List String :=
  match computeRange s.mem.last_processed_block inp.latest with
  | none => (s, [])
  | some _ =>
    match inp.fetched with
    | none => (s, [])
    | some logs =>
      let r := processLogs p ep inp.relayOk s.mem 0 (logs.take j)
      ({ mem := r.1, file := s.file }, r.2.2)

/-- Hex digit test for the collaborator models. -/
def isHexDigit (c : Char) : Bool :=
  "0123456789abcdefABCDEF".data.contains c

/-- Numeric value of a hex digit. -/
def hexDigitVal (c : Char) : Nat :=
  if c.isDigit then c.toNat - 48
  else if "abcdef".data.contains c then c.toNat - 87
  else if "ABCDEF".data.contains c then c.toNat - 55
  else 0

/-- Big-endian hex reading of a character list. -/
def hexNatOfChars (cs : List Char) : Nat :=
  cs.foldl (fun a c => a * 16 + hexDigitVal c) 0

/-- Python s.startswith applied to the 0x prefix. -/
def startsWith0x (s : String) : Bool :=
  s.data.take 2 == "0x".data

/-- Modelled from the spec: Web3.keccak with a text argument, the deterministic hash the
spec requires for dedup keys, rendered as an injective tagging since the digest value is
opaque to the listener. -/
def mockKeccakText (s : String) : String :=
  "keccak:" ++ s

/-- Modelled from the spec: Web3.to_checksum_address, the address-checksum formatter
collaborator; it succeeds exactly on 0x-prefixed 20-byte hex strings and raises
otherwise; the checksum case-folding itself is opaque to the listener and omitted. -/
def mockToChecksum (s : String) : Option String :=
  if startsWith0x s && (s.data.drop 2).length == 40 && (s.data.drop 2).all isHexDigit
  then some s else none

/-- Modelled from the spec: eth_abi.decode applied to a topic; the script passes the
topic string where the library expects bytes, so this call always raises. -/
def mockAbiDecodeTopic (_ty : String) (_topic : String) : Option Value :=
  none

/-- Modelled from the spec: eth_abi.decode over bytes.fromhex of the data blob for
uint256 fields; each value is one 32-byte big-endian word; malformed hex or a wrong
total length raises. -/
def mockAbiDecodeData (types : List String) (hexData : String) : Option (List Value) :=
  if types.all (fun t => t == "uint256") && hexData.data.length == 64 * types.length
      && hexData.data.all isHexDigit then
    some ((List.range types.length).map
      (fun i => Value.num (hexNatOfChars ((hexData.data.drop (64 * i)).take 64))))
  else none

/-- The collaborator primitives assembled for concrete evaluation. -/
def mockPrims : Primitives :=
  { keccakText := mockKeccakText, toChecksum := mockToChecksum,
    abiDecodeTopic := mockAbiDecodeTopic, abiDecodeData := mockAbiDecodeData }

/-- A 32-byte topic rendered as 40 hex characters, enough for the low 20 bytes the
address path reads. -/
def topicA : String :=
  String.mk (List.replicate 40 'a')

/-- A well-formed data blob for two uint256 fields. -/
def dataOk : String :=
  "0x" ++ String.mk (List.replicate 128 '0')

/-- A well-formed TokensLocked log at the given block with the given transaction hash,
log index and removed flag. -/
def mkLog (b : Int) (tx : String) (idx : Nat) (rm : Bool) : Log :=
  { address := "0xbridge", topics := ["0xsig", topicA, topicA], data := dataOk,
    blockNumber := b, transactionHash := tx, transactionIndex := 0, logIndex := idx,
    removed := rm }

/-- A fresh start: default in-memory state, no backing file yet. -/
def s0 : SysState :=
  { mem := default_state, file := FileContent.missing }

/-- A log in block 1 whose relay will fail. -/
def c1Log : Log := mkLog 1 "0xt1" 0 false

/-- The dedup key of c1Log. -/
def c1Key : String := event_hash_of mockPrims c1Log

/-- A tick at head 107 fetching only c1Log, every relay attempt failing. -/
def c1Input : TickInput :=
  { latest := 107, fetched := some [c1Log], relayOk := fun _ => false,
    persistOk := true }

/-- A log in block 1, first occurrence of the duplicated event. -/
def c2LogA : Log := mkLog 1 "0xt2" 0 false

/-- A later fetch returning a log with the same transaction hash and log index, as in
scenario 2 of the spec, in a block of the next window. -/
def c2LogB : Log := mkLog 150 "0xt2" 0 false

/-- The common dedup key of c2LogA and c2LogB. -/
def c2Key : String := event_hash_of mockPrims c2LogA

/-- First tick: head 107, one log, its relay fails. -/
def c2Tick1 : TickInput :=
  { latest := 107, fetched := some [c2LogA], relayOk := fun _ => false,
    persistOk := true }

/-- Second tick: head 214, the duplicate log, relays succeed. -/
def c2Tick2 : TickInput :=
  { latest := 214, fetched := some [c2LogB], relayOk := fun _ => true,
    persistOk := true }

/-- A log carrying removed = true, i.e. one invalidated by a reorg. -/
def c4Log : Log := mkLog 3 "0xt4" 1 true

/-- The dedup key of c4Log. -/
def c4Key : String := event_hash_of mockPrims c4Log

/-- A tick at head 107 fetching only the removed log, relays succeeding. -/
def c4Input : TickInput :=
  { latest := 107, fetched := some [c4Log], relayOk := fun _ => true,
    persistOk := true }

/-- A tick at head 107 with an empty fetch whose state save fails. -/
def c6Input : TickInput :=
  { latest := 107, fetched := some ([] : List Log), relayOk := fun _ => true,
    persistOk := false }

/-- A system whose backing store holds the successfully persisted default state. -/
def s6 : SysState :=
  { mem := default_state, file := FileContent.doc (stateToJson default_state) }

/-- A log with four topics where the descriptor expects three: one surplus topic. -/
def c9ExtraLog : Log :=
  { address := "0xbridge", topics := ["0xsig", topicA, topicA, topicA], data := dataOk,
    blockNumber := 5, transactionHash := "0xt9", transactionIndex := 0, logIndex := 0,
    removed := false }

/-- A log with two topics where the descriptor expects three: one missing topic. -/
def c9ShortLog : Log :=
  { address := "0xbridge", topics := ["0xsig", topicA], data := dataOk,
    blockNumber := 7, transactionHash := "0xt9s", transactionIndex := 0, logIndex := 0,
    removed := false }

/-- A well-formed log following the malformed one in the same batch. -/
def c9GoodLog : Log := mkLog 8 "0xt9g" 2 false

/-- A tick whose fetch raises a ConnectionError. -/
def c10Input : TickInput :=
  { latest := 107, fetched := none, relayOk := fun _ => true, persistOk := true }

/-- Helper: marking a key when the record stays within capacity is a plain append. -/
theorem mark_keeps_within_capacity (db : StateDB) (h : String)
    (hlen : db.processed_event_hashes.length + 1 ≤ max_events) :
    (mark_event_as_processed db h).processed_event_hashes
      = db.processed_event_hashes ++ [h] := by
  have hc : ¬ (db.processed_event_hashes ++ [h]).length > max_events := by
    simp only [List.length_append, List.length_cons, List.length_nil]
    omega
  simp [mark_event_as_processed, hc]
  intro hx
  omega

/-- Helper: marking a key never changes the cursor. -/
theorem mark_preserves_cursor (db : StateDB) (h : String) :
    (mark_event_as_processed db h).last_processed_block = db.last_processed_block := by
  simp [mark_event_as_processed]

/-- Helper: the topic loop fails whenever there is at least one indexed input and the
topic list is too short for all of them. -/
theorem decodeIndexed_short (p : Primitives) (topics : List String) :
    ∀ (inputs : List AbiInput) (i : Nat), inputs ≠ [] →
      topics.length < i + 1 + inputs.length →
      decodeIndexed p topics inputs i = none := by
  intro inputs
  induction inputs with
  | nil => intro i hne _; exact absurd rfl hne
  | cons inp rest ih =>
    intro i _ hlen
    rcases hg : topics[i + 1]? with _ | topic
    · simp [decodeIndexed, hg]
    · have hlt : i + 1 < topics.length := by
        by_contra hle
        rw [List.getElem?_eq_none (by omega)] at hg
        exact Option.noConfusion hg
      cases rest with
      | nil => simp only [List.length_cons, List.length_nil] at hlen; omega
      | cons b bs =>
        have hr : decodeIndexed p topics (b :: bs) (i + 1) = none := by
          refine ih (i + 1) (by simp) ?_
          simp only [List.length_cons] at hlen ⊢
          omega
        rcases hv : decodeTopicValue p inp topic with _ | v
        · simp [decodeIndexed, hg, hv]
        · have hstep : decodeIndexed p topics (inp :: b :: bs) i
              = (match decodeIndexed p topics (b :: bs) (i + 1) with
                 | none => none
                 | some vs => some ((inp.name, v) :: vs)) := by
            simp only [decodeIndexed, hg, hv]
          rw [hstep, hr]

/-- Helper: processing one log never changes the cursor field. -/
theorem processLog_preserves_cursor (p : Primitives) (ep : EventParser)
    (relayOk : Nat → Bool) (db : StateDB) (n : Nat) (log : Log) :
    (processLog p ep relayOk db n log).1.last_processed_block
      = db.last_processed_block := by
  by_cases hsk : is_event_processed db (event_hash_of p log)
  · simp [processLog, hsk]
  · rcases hp : parse_log p ep log with _ | ev
    · simp [processLog, hsk, hp]
    · by_cases hr : relayOk n
      · simp [processLog, hsk, hp, hr, mark_preserves_cursor]
      · simp [processLog, hsk, hp, hr]

/-- Helper: the batch loop never changes the cursor field. -/
theorem processLogs_preserves_cursor (p : Primitives) (ep : EventParser)
    (relayOk : Nat → Bool) :
    ∀ (logs : List Log) (db : StateDB) (n : Nat),
      (processLogs p ep relayOk db n logs).1.last_processed_block
        = db.last_processed_block := by
  intro logs
  induction logs with
  | nil => intro db n; simp [processLogs]
  | cons log rest ih =>
    intro db n
    simp only [processLogs]
    rw [ih]
    exact processLog_preserves_cursor p ep relayOk db n log

/-- C1: a Running tick at head 107 starting from cursor 0 fetches a single log in block
1 whose relay returns failure; the code nevertheless invokes the relayer once and fails,
leaves the key unmarked, advances the cursor to the upper bound 101 of the whole batch,
and the next tick at head 214 scans 102 to 201, so block 1 is never scanned again and
the failed log is never retried. This exhibits the failing input for the claim that the
cursor never advances past an unresolved log. -/
theorem c1_relay_failure_still_advances_cursor :
    (runTick mockPrims bridgeEventParser c1Input s0).2 = [c1Key] ∧
    is_event_processed (runTick mockPrims bridgeEventParser c1Input s0).1.mem c1Key
      = false ∧
    c1Log.blockNumber = 1 ∧
    (runTick mockPrims bridgeEventParser c1Input s0).1.mem.last_processed_block = 101 ∧
    computeRange
      (runTick mockPrims bridgeEventParser c1Input s0).1.mem.last_processed_block 214
      = some (102, 201) := by
  decide

/-- C3 counterexample: with lastProcessedBlock 0 and latest height 107 the code scans 1
to 101, which is 101 blocks, strictly more than the batch size, and differs from the
value min(confirmedHead, from + batchSize - 1) = 100 the claim states. -/
theorem c3_counterexample :
    computeRange 0 107 = some (1, 101) ∧
    ¬ (101 : Int)
        = min (107 - CONFIRMATIONS_REQUIRED) (1 + BLOCK_PROCESSING_BATCH_SIZE - 1) ∧
    101 - 1 + 1 > BLOCK_PROCESSING_BATCH_SIZE := by
  decide

/-- C3 amended: on every Running tick that scans a range, from = lastProcessedBlock + 1
and the upper bound is confirmedHead whenever confirmedHead - from is at most batchSize,
and from + batchSize - 1 otherwise; consequently a tick scans at most batchSize + 1
blocks, not batchSize. -/
theorem c3_range_formula (lp latest f t : Int)
    (h : computeRange lp latest = some (f, t)) :
    f = lp + 1 ∧
    t = (if latest - CONFIRMATIONS_REQUIRED - f > BLOCK_PROCESSING_BATCH_SIZE
         then f + BLOCK_PROCESSING_BATCH_SIZE - 1
         else latest - CONFIRMATIONS_REQUIRED) ∧
    t - f + 1 ≤ BLOCK_PROCESSING_BATCH_SIZE + 1 := by
  simp only [computeRange] at h
  split_ifs at h with h1 h2
  · simp only [Option.some.injEq, Prod.mk.injEq] at h
    obtain ⟨hf, ht⟩ := h
    subst hf
    subst ht
    refine ⟨rfl, ?_, ?_⟩
    · rw [if_pos (by simp only [CONFIRMATIONS_REQUIRED,
        BLOCK_PROCESSING_BATCH_SIZE] at h2 ⊢; omega)]
    · simp only [BLOCK_PROCESSING_BATCH_SIZE]
      omega
  · simp only [Option.some.injEq, Prod.mk.injEq] at h
    obtain ⟨hf, ht⟩ := h
    subst hf
    subst ht
    refine ⟨rfl, ?_, ?_⟩
    · rw [if_neg (by simp only [CONFIRMATIONS_REQUIRED,
        BLOCK_PROCESSING_BATCH_SIZE] at h2 ⊢; omega)]
    · simp only [CONFIRMATIONS_REQUIRED, BLOCK_PROCESSING_BATCH_SIZE] at h1 h2 ⊢
      omega

/-- C3 witness: the amended formula applied at cursor 0, head 107. -/
theorem c3_range_formula_witness :
    computeRange 0 107 = some (1, 101) ∧
    ((1 : Int) = 0 + 1 ∧
     (101 : Int)
       = (if 107 - CONFIRMATIONS_REQUIRED - 1 > BLOCK_PROCESSING_BATCH_SIZE
          then 1 + BLOCK_PROCESSING_BATCH_SIZE - 1
          else 107 - CONFIRMATIONS_REQUIRED) ∧
     (101 : Int) - 1 + 1 ≤ BLOCK_PROCESSING_BATCH_SIZE + 1) :=
  ⟨by decide, c3_range_formula 0 107 1 101 (by decide)⟩

/-- C4: the per-log loop never inspects the removed flag: a fetched log carrying
removed = true is decoded, relayed and marked processed exactly like a live log, as this
concrete tick shows. This exhibits the failing input for the claim that removed logs are
never acted on. -/
theorem c4_removed_log_is_acted_on :
    c4Log.removed = true ∧
    (parse_log mockPrims bridgeEventParser c4Log).isSome = true ∧
    (runTick mockPrims bridgeEventParser c4Input s0).2 = [c4Key] ∧
    is_event_processed (runTick mockPrims bridgeEventParser c4Input s0).1.mem c4Key
      = true := by
  decide

/-- C5: whenever a tick scans a range, its upper bound is at most the reported height
minus the confirmation depth, so no block within the confirmation window is scanned. -/
theorem c5_confirmation_depth (lp latest f t : Int)
    (h : computeRange lp latest = some (f, t)) :
    t ≤ latest - CONFIRMATIONS_REQUIRED := by
  simp only [computeRange, CONFIRMATIONS_REQUIRED, BLOCK_PROCESSING_BATCH_SIZE] at h ⊢
  split_ifs at h with h1 h2
  · simp only [Option.some.injEq, Prod.mk.injEq] at h
    obtain ⟨hf, ht⟩ := h
    omega
  · simp only [Option.some.injEq, Prod.mk.injEq] at h
    obtain ⟨hf, ht⟩ := h
    omega

/-- C5 witness: the bound applied at cursor 0, head 107. -/
theorem c5_confirmation_depth_witness :
    computeRange 0 107 = some (1, 101) ∧ (101 : Int) ≤ 107 - CONFIRMATIONS_REQUIRED :=
  ⟨by decide, c5_confirmation_depth 0 107 1 101 (by decide)⟩

/-- C6: a tick whose save_state write fails still leaves the in-memory cursor advanced
to 101 while the backing store keeps the old cursor 0, and the next tick resumes from
102, computed from the advanced in-memory cursor rather than from the last successfully
persisted one. This exhibits the failing input for the claim that after a failed persist
the loop resumes from the last persisted cursor. -/
theorem c6_failed_persist_cursor_still_advanced :
    (runTick mockPrims bridgeEventParser c6Input s6).1.mem.last_processed_block
      = 101 ∧
    (runTick mockPrims bridgeEventParser c6Input s6).1.file
      = FileContent.doc (stateToJson default_state) ∧
    Option.bind (load_state (runTick mockPrims bridgeEventParser c6Input s6).1.file)
        loaded_cursor
      = some (Json.num 0) ∧
    computeRange
      (runTick mockPrims bridgeEventParser c6Input s6).1.mem.last_processed_block 214
      = some (102, 201) :=
  ⟨by decide, rfl, rfl, by decide⟩

/-- C8 counterexample: two malformed backing stores the claim covers are not mapped to
the zero default. A store holding bytes that do not decode as text makes load fail the
caller: the UnicodeDecodeError is caught by neither except clause, reaches
StateDB.__init__ and crashes startup. A store holding the schema-invalid but parseable
JSON document, an empty array, is returned verbatim instead of the zero default. -/
theorem c8_malformed_store_not_defaulted :
    load_state FileContent.undecodable = none ∧
    load_state (FileContent.doc (Json.arr [])) = some (Json.arr []) ∧
    Json.arr [] ≠ default_state_doc :=
  ⟨rfl, rfl, fun h => Json.noConfusion h⟩

/-- C8 amended: load returns the zero default, with cursor 0 and an empty dedup record,
without failing the caller, exactly on a missing file and on content that fails JSON
parsing with a JSONDecodeError; a backing store holding valid JSON of any other shape
is returned verbatim rather than defaulted, and undecodable bytes raise an uncaught
UnicodeDecodeError that crashes startup. -/
theorem c8_load_defaults (j : Json) :
    load_state FileContent.missing = some default_state_doc ∧
    load_state FileContent.syntaxError = some default_state_doc ∧
    load_state (FileContent.doc j) = some j ∧
    loaded_cursor default_state_doc = some (Json.num 0) ∧
    default_state_doc = stateToJson default_state :=
  ⟨rfl, rfl, rfl, rfl, rfl⟩

/-- C2 counterexample: over two ticks the relayer is invoked twice for the same dedup
key. The first tick fetches the log and its relay fails, so the key is never marked; the
second fetch returns a log with the same transaction hash and log index, which passes
the dedup check again and is relayed a second time. -/
theorem c2_key_relayed_twice :
    ((runTick mockPrims bridgeEventParser c2Tick1 s0).2 ++
      (runTick mockPrims bridgeEventParser c2Tick2
        (runTick mockPrims bridgeEventParser c2Tick1 s0).1).2) = [c2Key, c2Key] := by
  decide

/-- C2 amended: a dedup key already present in the record is never submitted again
while it stays there: for any batch that cannot overflow the dedup capacity, no log of
the batch whose key is the recorded one ever reaches the relayer. Only a key whose
relay failed (never marked), a key evicted by more than capacity newer marks, or a key
whose mark was not persisted before a restart can be submitted again. -/
theorem c2_recorded_key_never_relayed (p : Primitives) (ep : EventParser)
    (relayOk : Nat → Bool) (db : StateDB) (n : Nat) (logs : List Log) (key : String)
    (hmem : is_event_processed db key = true)
    (hcap : db.processed_event_hashes.length + logs.length ≤ max_events) :
    key ∉ (processLogs p ep relayOk db n logs).2.2 := by
  induction logs generalizing db n with
  | nil => simp [processLogs]
  | cons log rest ih =>
    simp only [processLogs]
    by_cases hsk : is_event_processed db (event_hash_of p log)
    · simp only [processLog, hsk, if_true]
      simpa using ih db n hmem (by simp only [List.length_cons] at hcap; omega)
    · have hne : key ≠ event_hash_of p log := by
        intro he
        rw [he] at hmem
        exact hsk hmem
      rcases hp : parse_log p ep log with _ | ev
      · simp only [processLog, hsk, if_false, hp, Bool.false_eq_true]
        simpa using ih db n hmem (by simp only [List.length_cons] at hcap; omega)
      · by_cases hr : relayOk n
        · simp only [processLog, hsk, if_false, hp, hr, if_true, Bool.false_eq_true]
          have hcap1 : db.processed_event_hashes.length + 1 ≤ max_events := by
            simp only [List.length_cons] at hcap
            omega
          have hmk := mark_keeps_within_capacity db (event_hash_of p log) hcap1
          have hmem2 : is_event_processed
              (mark_event_as_processed db (event_hash_of p log)) key = true := by
            simp only [is_event_processed, decide_eq_true_eq] at hmem ⊢
            rw [hmk]
            exact List.mem_append_left _ hmem
          have hcap2 : (mark_event_as_processed db
                (event_hash_of p log)).processed_event_hashes.length
              + rest.length ≤ max_events := by
            rw [hmk]
            simp only [List.length_append, List.length_cons, List.length_nil,
              List.length_cons] at hcap ⊢
            omega
          have hrec := ih (mark_event_as_processed db (event_hash_of p log)) (n + 1)
            hmem2 hcap2
          simp [hrec, hne]
        · simp only [processLog, hsk, if_false, hp, hr, Bool.false_eq_true]
          have hrec := ih db (n + 1) hmem
            (by simp only [List.length_cons] at hcap; omega)
          simp [hrec, hne]

/-- C2 amended witness: a state that already recorded the key of c2LogA skips it. -/
theorem c2_recorded_key_never_relayed_witness :
    is_event_processed
      { last_processed_block := 0, processed_event_hashes := [c2Key] } c2Key = true ∧
    ({ last_processed_block := 0,
       processed_event_hashes := [c2Key] } : StateDB).processed_event_hashes.length
      + [c2LogA].length ≤ max_events ∧
    c2Key ∉ (processLogs mockPrims bridgeEventParser (fun _ => true)
      { last_processed_block := 0, processed_event_hashes := [c2Key] } 0
      [c2LogA]).2.2 :=
  ⟨by decide, by decide,
    c2_recorded_key_never_relayed mockPrims bridgeEventParser (fun _ => true)
      { last_processed_block := 0, processed_event_hashes := [c2Key] } 0 [c2LogA]
      c2Key (by decide) (by decide)⟩

/-- C9 counterexample: a log with four topics, one more than 1 plus the number of
indexed fields, is still decoded successfully; the topics length is never verified
upward, so the claim that any length mismatch fails to decode is false. -/
theorem c9_extra_topics_still_decode :
    c9ExtraLog.topics.length ≠ 1 + bridgeEventParser.indexed_inputs.length ∧
    (parse_log mockPrims bridgeEventParser c9ExtraLog).isSome = true := by
  decide

/-- C9 amended: a log with fewer topics than 1 plus the number of indexed fields of the
bridge descriptor fails to decode for every choice of collaborator primitives, and the
failure is per-event and non-fatal: in the batch loop such a log leaves the state
untouched and the remaining logs are processed exactly as they would be without it. -/
theorem c9_short_topics_fail_and_skip (p : Primitives) (relayOk : Nat → Bool)
    (db : StateDB) (n : Nat) (log : Log) (rest : List Log)
    (hshort : log.topics.length < 1 + bridgeEventParser.indexed_inputs.length) :
    parse_log p bridgeEventParser log = none ∧
    processLogs p bridgeEventParser relayOk db n (log :: rest)
      = processLogs p bridgeEventParser relayOk db n rest := by
  have h1 : parse_log p bridgeEventParser log = none := by
    have hd := decodeIndexed_short p log.topics bridgeEventParser.indexed_inputs 0
      (by decide) (by omega)
    simp [parse_log, hd]
  refine ⟨h1, ?_⟩
  by_cases hsk : is_event_processed db (event_hash_of p log)
  · simp [processLogs, processLog, hsk]
  · simp [processLogs, processLog, hsk, h1]

/-- C9 amended witness: the short-topic log fails to decode and is skipped ahead of a
well-formed log in the same batch. -/
theorem c9_short_topics_fail_and_skip_witness :
    c9ShortLog.topics.length < 1 + bridgeEventParser.indexed_inputs.length ∧
    (parse_log mockPrims bridgeEventParser c9ShortLog = none ∧
     processLogs mockPrims bridgeEventParser (fun _ => true) default_state 0
        [c9ShortLog, c9GoodLog]
       = processLogs mockPrims bridgeEventParser (fun _ => true) default_state 0
          [c9GoodLog]) :=
  ⟨by decide,
    c9_short_topics_fail_and_skip mockPrims (fun _ => true) default_state 0
      c9ShortLog [c9GoodLog] (by decide)⟩

/-- C10: a tick whose fetch raises leaves the whole system state untouched, and a tick
interrupted by an exception after any number of loop iterations leaves the in-memory
cursor unchanged and never writes the backing store: cursor advance and persistence only
happen after the batch loop completes without an exception. -/
theorem c10_exception_no_advance_no_persist (p : Primitives) (ep : EventParser)
    (inp : TickInput) (s : SysState) :
    (inp.fetched = none → runTick p ep inp s = (s, [])) ∧
    (∀ j : Nat,
      (runTickInterrupted p ep inp s j).1.mem.last_processed_block
        = s.mem.last_processed_block ∧
      (runTickInterrupted p ep inp s j).1.file = s.file) := by
  constructor
  · intro hf
    rcases hcr : computeRange s.mem.last_processed_block inp.latest with _ | ft
    · simp [runTick, hcr]
    · simp [runTick, hcr, hf]
  · intro j
    rcases hcr : computeRange s.mem.last_processed_block inp.latest with _ | ft
    · simp [runTickInterrupted, hcr]
    · rcases hf : inp.fetched with _ | logs
      · simp [runTickInterrupted, hcr, hf]
      · simp [runTickInterrupted, hcr, hf, processLogs_preserves_cursor]

/-- C10 witness: the guarantee applied to a concrete failing fetch. -/
theorem c10_exception_no_advance_no_persist_witness :
    runTick mockPrims bridgeEventParser c10Input s0 = (s0, []) ∧
    (runTickInterrupted mockPrims bridgeEventParser c10Input s0 0).1.mem.last_processed_block
      = s0.mem.last_processed_block :=
  ⟨(c10_exception_no_advance_no_persist mockPrims bridgeEventParser c10Input s0).1
      rfl,
    ((c10_exception_no_advance_no_persist mockPrims bridgeEventParser c10Input
        s0).2 0).1⟩

end Script
